import Mathlib

/-!
# Verification of the streaming chat relay (hallal-jarvis)

Shallow embedding of the SSE streaming relay:
* `src/app/api/chat/stream/route.ts` — `GET`, `OPTIONS`, `sendSSEMessage`,
  and the `POST` turn orchestrator (modelled by `POST` / `runTurn` /
  `translateEvent` below);
* `src/lib/convex.ts` — `getConvexClient` with its module-level cache.

JavaScript effects are made explicit: the SSE writer is a state record
threaded through the handler, exceptions become `Except` / explicit
branches, and JavaScript truthiness of optional strings is the
predicate `truthy`.
-/

namespace HallalJarvis

/-- JavaScript truthiness for a possibly-absent string value:
`undefined`/`null` and the empty string are falsy, every other string is
truthy. -/
def truthy : Option String → Bool
  | none => false
  | some s => s ≠ ""

/-- Modelled from the spec: the SSE data-field marker constant lives in
`src/lib/types.ts`, which is absent from the sources; §4.1/§6 of the spec
fix the wire format as `data: <json>` frames. -/
def SSE_DATA_FIELD : String := "data: "

/-- Modelled from the spec: the SSE line-delimiter constant lives in
`src/lib/types.ts`, which is absent from the sources; §4.1/§6 of the spec
fix the frame delimiter as two newlines. -/
def SSE_LINE_DELIMITER : String := "\n\n"

/-- The protocol envelopes of `StreamMessage` (the discriminated union
keyed by `type`): `connected`, `token`, `tool-start`, `tool-end`,
`error`, `done`. -/
inductive StreamMessage where
  | connected : StreamMessage
  | token (t : String) : StreamMessage
  | toolStart (tool : String) (input : String) : StreamMessage
  | toolEnd (tool : String) (output : String) : StreamMessage
  | error (e : String) : StreamMessage
  | done : StreamMessage
  deriving Repr, DecidableEq

/-- Terminal envelopes: `done` and `error`. -/
def isTerminal : StreamMessage → Bool
  | .done => true
  | .error _ => true
  | _ => false

/-- The `connected` envelope recognizer. -/
def isConnected : StreamMessage → Bool
  | .connected => true
  | _ => false

/-- One entry of the inbound `messages` history: a role string and a
content string (`role` is a raw string in the TypeScript payload; the
code only compares it against `"user"`). -/
structure ChatMessage where
  role : String
  content : String
  deriving Repr, DecidableEq

/-- LangChain messages the orchestrator builds:
`HumanMessage` / `AIMessage`. -/
inductive LCMessage where
  | human (content : String) : LCMessage
  | ai (content : String) : LCMessage
  deriving Repr, DecidableEq

/-- `route.ts` lines 162-169: map each history entry
(`msg.role === "user" ? new HumanMessage(msg.content) : new AIMessage(msg.content)`)
and append `new HumanMessage(newMessage)` last. -/
def toLangChainMessages (messages : List ChatMessage) (newMessage : String) :
    List LCMessage :=
  (messages.map fun msg =>
    if msg.role = "user" then LCMessage.human msg.content
    else LCMessage.ai msg.content) ++ [LCMessage.human newMessage]

/-- The role-mapping applied to one history entry. -/
def roleMap (msg : ChatMessage) : LCMessage :=
  if msg.role = "user" then LCMessage.human msg.content
  else LCMessage.ai msg.content

/-- One part of a structured (array-shaped) chunk content: either an
object (whose `text` field may be absent) or a direct string part. -/
inductive ContentPart where
  | obj (text : Option String) : ContentPart
  | prim (s : String) : ContentPart
  deriving Repr, DecidableEq

/-- The polymorphic `token.content` of an `on_chat_model_stream` chunk:
a bare string, an array of parts, or some other shape (neither string
nor array). -/
inductive ChunkContent where
  | str (s : String) : ChunkContent
  | arr (parts : List ContentPart) : ChunkContent
  | other : ChunkContent
  deriving Repr, DecidableEq

/-- Raw agent events as the drain loop in `route.ts` (lines 180-233)
distinguishes them.  `chatModelStream none` is a falsy
`event.data?.chunk`; for `toolEndEv`, `ctorOk` records whether
`new ToolMessage(event.data.output)` succeeds and `lcName` is the
constructed message's `lc_kwargs?.name`. -/
inductive AgentEvent where
  | chatModelStream (chunk : Option ChunkContent) : AgentEvent
  | toolStartEv (name : Option String) (input : Option String) : AgentEvent
  | toolEndEv (output : Option String) (ctorOk : Bool) (lcName : Option String) :
      AgentEvent
  | otherEvent : AgentEvent
  | nullEvent : AgentEvent
  deriving Repr, DecidableEq

/-- The text `route.ts` lines 197-199 extract from the first part of an
array-shaped content:
`typeof content === 'object' ? content.text : content`. -/
def partText : ContentPart → Option String
  | .obj t => t
  | .prim s => some s

/-- The tool-name resolution of `route.ts` line 221:
`toolMessage.lc_kwargs?.name || "unknown"`. -/
def resolveToolName (lcName : Option String) : String :=
  if truthy lcName then lcName.getD "" else "unknown"

/-- The body of the drain loop of `route.ts` (lines 180-233) for one
event: the zero or one envelopes written for it.

* `on_chat_model_stream` with falsy chunk: nothing (line 186).
* string content: a `token` envelope, unconditionally (lines 188-193).
* array content: a `token` envelope only when the first part's text is
  truthy (lines 194-207); an empty array yields nothing.
* other content shapes: nothing (no matching branch).
* `on_tool_start`: a `tool-start` envelope only when `event.name` and
  `event.data?.input` are both truthy (lines 209-216).
* `on_tool_end`: only when `event.data?.output` is truthy; the tool
  name is `toolMessage.lc_kwargs?.name || "unknown"`, and a throwing
  `ToolMessage` constructor is caught and suppresses the envelope
  (lines 217-232).
* unrecognized and null events: nothing (lines 182, 232). -/
def translateEvent : AgentEvent → List StreamMessage
  | .nullEvent => []
  | .otherEvent => []
  | .chatModelStream none => []
  | .chatModelStream (some (.str s)) => [StreamMessage.token s]
  | .chatModelStream (some (.arr [])) => []
  | .chatModelStream (some (.arr (p :: _))) =>
      match partText p with
      | some text => if text ≠ "" then [StreamMessage.token text] else []
      | none => []
  | .chatModelStream (some .other) => []
  | .toolStartEv name input =>
      if truthy name && truthy input then
        [StreamMessage.toolStart (if truthy name then name.getD "" else "unknown")
          (input.getD "")]
      else []
  | .toolEndEv output ctorOk lcName =>
      if truthy output then
        if ctorOk then
          [StreamMessage.toolEnd (resolveToolName lcName) (output.getD "")]
        else []
      else []

/-- The whole drain loop over a list of yielded events. -/
def processEvents (evs : List AgentEvent) : List StreamMessage :=
  (evs.map translateEvent).flatten

/-- The writer state of the turn: the envelopes successfully written so
far, and whether the writable half has been closed. -/
structure Writer where
  written : List StreamMessage := []
  closed : Bool := false
  deriving Repr, DecidableEq

/-- Writing one envelope through the writer: appended while the stream
is open; a write on a closed stream is rejected by the transport and
appends nothing. -/
def writeMsg (w : Writer) (m : StreamMessage) : Writer :=
  if w.closed then w else { w with written := w.written ++ [m] }

/-- The raw `writer.close()` of the web-streams API: closes an open
writer, rejects (raises) when the writer is already closed. -/
def rawClose (w : Writer) : Except String Writer :=
  if w.closed then Except.error "writer is already closed"
  else Except.ok { w with closed := true }

/-- The guarded close in the `finally` block of `route.ts` (lines
292-300): `writer.close()` wrapped in `try`/`catch`, so a rejection is
swallowed and the writer state is left as it was. -/
def finallyClose (w : Writer) : Writer :=
  match rawClose w with
  | .ok w' => w'
  | .error _ => w

/-- Outcome of `submitQuestion` and the drain: either the call itself
throws (or returns a falsy stream, line 175-177), or the stream yields
a list of events and then either completes (`failure = none`) or raises
(`failure = some msg`). -/
inductive AgentOutcome where
  | throws (msg : String) : AgentOutcome
  | stream (evs : List AgentEvent) (failure : Option String) : AgentOutcome
  deriving Repr, DecidableEq

/-- The error message of the `TypeError` thrown at `route.ts` line 163
when the parsed body has no `messages` array (`messages.map` on
`undefined`). -/
def mapUndefinedError : String :=
  "Cannot read properties of undefined (reading 'map')"

/-- The async IIFE of `route.ts` (lines 140-301): the in-stream part of
one turn. `inboundPersistOk` and `errorPersistOk` are the outcomes of
the two `convex.mutation` append calls — both are wrapped in
`try`/`catch` (lines 146-159 and 259-271), so neither affects the
envelope trace. `messages = none` models a parsed body without a
`messages` array, whose `.map` throws into the outer catch (line 273).
Every path ends in the `finally` close (lines 292-300). -/
def runTurn (inboundPersistOk : Bool) (messages : Option (List ChatMessage))
    (newMessage : String) (agent : AgentOutcome) (errorPersistOk : Bool) :
    Writer :=
  let w₀ := writeMsg {} StreamMessage.connected
  match messages with
  | none =>
      finallyClose (writeMsg w₀ (StreamMessage.error mapUndefinedError))
  | some msgs =>
      let _lc := toLangChainMessages msgs newMessage
      match agent with
      | .throws msg =>
          finallyClose (writeMsg w₀ (StreamMessage.error msg))
      | .stream evs failure =>
          let w₁ := (processEvents evs).foldl writeMsg w₀
          match failure with
          | none => finallyClose (writeMsg w₁ StreamMessage.done)
          | some msg => finallyClose (writeMsg w₁ (StreamMessage.error msg))

/-- The parse outcome of `await req.json()`: the body is unparsable
JSON (the `catch` at line 87 fires), or it parses into an object whose
`messages` field may or may not be a usable array. -/
inductive BodyParse where
  | unparsable : BodyParse
  | parsed (messages : Option (List ChatMessage)) (newMessage : String)
      (chatId : String) : BodyParse
  deriving Repr, DecidableEq

/-- The result of the `POST` handler: an ordinary (non-streaming) HTTP
response with a status code, or the SSE stream whose eventual writer
trace is recorded. -/
inductive PostResult where
  | httpResponse (status : Nat) : PostResult
  | sseStream (w : Writer) : PostResult
  deriving Repr, DecidableEq

/-- The `POST` handler of `route.ts` (lines 64-322).

* falsy `userId` → 401 (lines 73-81);
* body fails to parse → 400 (lines 84-95);
* `getConvexClient()` throws → 500 (lines 100-111);
* client without a `mutation` function → 500 (lines 114-123);
* otherwise the stream opens and the async turn runs (lines 126-303). -/
def POST (userId : Option String) (body : BodyParse)
    (convexClient : Except String Unit) (hasMutation : Bool)
    (inboundPersistOk : Bool) (agent : AgentOutcome)
    (errorPersistOk : Bool) : PostResult :=
  if truthy userId then
    match body with
    | .unparsable => PostResult.httpResponse 400
    | .parsed messages newMessage _chatId =>
        match convexClient with
        | .error _ => PostResult.httpResponse 500
        | .ok _ =>
            if hasMutation then
              PostResult.sseStream
                (runTurn inboundPersistOk messages newMessage agent
                  errorPersistOk)
            else PostResult.httpResponse 500
  else PostResult.httpResponse 401

/-- A minimal non-streaming HTTP response: status, content type and the
`Allow` header, as the `GET`/`OPTIONS` handlers build them. -/
structure MethodResponse where
  status : Nat
  contentType : Option String
  allow : Option String
  deriving Repr, DecidableEq

/-- The `GET` handler of `route.ts` (lines 22-31): a 405
method-not-allowed JSON response with `Allow: POST, OPTIONS`. -/
def GET : MethodResponse :=
  { status := 405
    contentType := some "application/json"
    allow := some "POST, OPTIONS" }

/-- The `OPTIONS` handler of `route.ts` (lines 34-44): a 200 CORS
preflight response with a null body and `Allow: POST, OPTIONS`. -/
def OPTIONS : MethodResponse :=
  { status := 200
    contentType := none
    allow := some "POST, OPTIONS" }

/-- The byte-level state of the response stream for `sendSSEMessage`:
the bytes written so far and whether the stream has been aborted. -/
structure ByteStream where
  bytes : String := ""
  aborted : Bool := false
  deriving Repr, DecidableEq

/-- `sendSSEMessage` of `route.ts` (lines 46-62), with serialization
(`JSON.stringify`) abstracted as a function `ser` that may fail: on
success the frame `SSE_DATA_FIELD ++ json ++ SSE_LINE_DELIMITER` is
written; a serialization failure is caught (lines 57-61) and the
envelope is dropped without touching the stream. -/
def sendSSEMessage (ser : StreamMessage → Option String) (w : ByteStream)
    (data : StreamMessage) : ByteStream :=
  match ser data with
  | none => w
  | some json =>
      { w with bytes := w.bytes ++ SSE_DATA_FIELD ++ json ++ SSE_LINE_DELIMITER }

/-- `getConvexClient` of `src/lib/convex.ts` (lines 7-28), with the
module-level `cachedClient` cell threaded explicitly.  `env` is
`process.env.NEXT_PUBLIC_CONVEX_URL` and `construct url` is
`new ConvexHttpClient(url)` (`none` models a throwing constructor).
Returns the updated cache cell and the call's result. -/
def getConvexClient {C : Type} (env : Option String)
    (construct : String → Option C) (cachedClient : Option C) :
    Option C × Except String C :=
  match cachedClient with
  | some c => (some c, Except.ok c)
  | none =>
      match env with
      | none => (none, Except.error "Convex URL is not configured")
      | some convexUrl =>
          match construct convexUrl with
          | some c => (some c, Except.ok c)
          | none => (none, Except.error "Failed to initialize Convex client")

/-- The normalization the array branch of the token handler applies to
a structured content: the first part's extracted text, `none` for an
empty array. -/
def firstPartText : List ContentPart → Option String
  | [] => none
  | p :: _ => partText p

/-- The non-protocol envelopes of one turn (tokens and tool events),
as a function of the parsed `messages` field and the agent outcome:
the drain loop's output when it runs, nothing on the failure-only
paths. -/
def midEnvelopes : Option (List ChatMessage) → AgentOutcome → List StreamMessage
  | some _, .stream evs _ => processEvents evs
  | _, _ => []

/-- The terminal envelope of one turn: `done` when the drain loop runs
and completes, `error` on every failure path. -/
def terminalEnvelope : Option (List ChatMessage) → AgentOutcome → StreamMessage
  | none, _ => StreamMessage.error mapUndefinedError
  | some _, .throws msg => StreamMessage.error msg
  | some _, .stream _ none => StreamMessage.done
  | some _, .stream _ (some msg) => StreamMessage.error msg

/-! ## Supporting lemmas -/

/-- Every envelope the drain loop emits for a single event is a
`token`, `tool-start` or `tool-end`: never `connected`, never a
terminal one. -/
lemma mem_translateEvent_not_protocol (e : AgentEvent) (m : StreamMessage)
    (h : m ∈ translateEvent e) : isConnected m = false ∧ isTerminal m = false := by
  cases e with
  | nullEvent => simp [translateEvent] at h
  | otherEvent => simp [translateEvent] at h
  | chatModelStream chunk =>
      match chunk with
      | none => simp [translateEvent] at h
      | some (.str s) =>
          simp [translateEvent] at h
          subst h
          exact ⟨rfl, rfl⟩
      | some .other => simp [translateEvent] at h
      | some (.arr []) => simp [translateEvent] at h
      | some (.arr (p :: rest)) =>
          simp only [translateEvent] at h
          cases hp : partText p with
          | none => rw [hp] at h; simp at h
          | some text =>
              rw [hp] at h
              by_cases ht : text = ""
              · simp [ht] at h
              · simp [ht] at h
                subst h
                exact ⟨rfl, rfl⟩
  | toolStartEv name input =>
      simp only [translateEvent] at h
      split at h
      · simp at h
        subst h
        exact ⟨rfl, rfl⟩
      · simp at h
  | toolEndEv output ctorOk lcName =>
      simp only [translateEvent] at h
      split at h
      · split at h
        · simp at h
          subst h
          exact ⟨rfl, rfl⟩
        · simp at h
      · simp at h

/-- Every envelope the whole drain loop emits is neither `connected`
nor terminal. -/
lemma mem_processEvents_not_protocol (evs : List AgentEvent) (m : StreamMessage)
    (h : m ∈ processEvents evs) : isConnected m = false ∧ isTerminal m = false := by
  unfold processEvents at h
  rw [List.mem_flatten] at h
  obtain ⟨l, hl, hm⟩ := h
  rw [List.mem_map] at hl
  obtain ⟨e, _, rfl⟩ := hl
  exact mem_translateEvent_not_protocol e m hm

/-- Folding `writeMsg` over an open writer appends all the envelopes
and leaves the writer open. -/
lemma foldl_writeMsg (msgs : List StreamMessage) (w : Writer)
    (h : w.closed = false) :
    msgs.foldl writeMsg w = { written := w.written ++ msgs, closed := false } := by
  induction msgs generalizing w with
  | nil =>
      cases w with
      | mk written closed =>
          simp only at h
          subst h
          simp
  | cons m ms ih =>
      rw [List.foldl_cons]
      have hw : writeMsg w m = { written := w.written ++ [m], closed := false } := by
        cases w with
        | mk written closed =>
            simp only at h
            subst h
            simp [writeMsg]
      rw [hw, ih _ rfl]
      simp

/-- Closed form of one turn's writer trace: `connected` first, then the
drain loop's envelopes, then the terminal envelope, with the writer
closed at the end. -/
lemma runTurn_eq (i : Bool) (ms : Option (List ChatMessage)) (nm : String)
    (ag : AgentOutcome) (e : Bool) :
    runTurn i ms nm ag e =
      { written := StreamMessage.connected ::
          (midEnvelopes ms ag ++ [terminalEnvelope ms ag])
        closed := true } := by
  cases ms with
  | none =>
      simp [runTurn, midEnvelopes, terminalEnvelope, writeMsg, finallyClose,
        rawClose]
  | some msgs =>
      cases ag with
      | throws msg =>
          simp [runTurn, midEnvelopes, terminalEnvelope, writeMsg, finallyClose,
            rawClose]
      | stream evs failure =>
          have h₀ : writeMsg {} StreamMessage.connected =
              ({ written := [StreamMessage.connected], closed := false } : Writer) := rfl
          cases failure with
          | none =>
              show finallyClose (writeMsg
                ((processEvents evs).foldl writeMsg
                  (writeMsg {} StreamMessage.connected)) StreamMessage.done) = _
              rw [h₀, foldl_writeMsg _ _ rfl]
              simp [writeMsg, finallyClose, rawClose, midEnvelopes,
                terminalEnvelope]
          | some msg =>
              show finallyClose (writeMsg
                ((processEvents evs).foldl writeMsg
                  (writeMsg {} StreamMessage.connected))
                (StreamMessage.error msg)) = _
              rw [h₀, foldl_writeMsg _ _ rfl]
              simp [writeMsg, finallyClose, rawClose, midEnvelopes,
                terminalEnvelope]

/-- The turn's terminal envelope is always terminal and never
`connected`. -/
lemma terminalEnvelope_terminal (ms : Option (List ChatMessage))
    (ag : AgentOutcome) :
    isTerminal (terminalEnvelope ms ag) = true ∧
      isConnected (terminalEnvelope ms ag) = false := by
  cases ms with
  | none => exact ⟨rfl, rfl⟩
  | some msgs =>
      cases ag with
      | throws msg => exact ⟨rfl, rfl⟩
      | stream evs failure => cases failure <;> exact ⟨rfl, rfl⟩

/-- Every envelope of the turn's middle segment is neither `connected`
nor terminal. -/
lemma mem_midEnvelopes_not_protocol (ms : Option (List ChatMessage))
    (ag : AgentOutcome) (m : StreamMessage) (h : m ∈ midEnvelopes ms ag) :
    isConnected m = false ∧ isTerminal m = false := by
  cases ms with
  | none => simp [midEnvelopes] at h
  | some msgs =>
      cases ag with
      | throws msg => simp [midEnvelopes] at h
      | stream evs failure =>
          exact mem_processEvents_not_protocol evs m h

/-- The last element of a nonempty list ending in a singleton. -/
lemma getLast_cons_append_singleton {α : Type} (x a : α) (l : List α) :
    (x :: (l ++ [a])).getLast? = some a := by
  induction l generalizing x with
  | nil => rfl
  | cons y ys ih =>
      rw [List.cons_append, List.getLast?_cons_cons]
      exact ih y

/-! ## Claims -/

/-- C1: for every authenticated request with a parseable body, the
envelope trace starts with exactly one `connected`, contains exactly one
terminal envelope, which is last (`done` exactly when the drain loop ran
and completed without failure, `error` otherwise), and the writer is
closed afterwards. -/
theorem stream_envelope_lifecycle (userId : Option String)
    (messages : Option (List ChatMessage)) (newMessage chatId : String)
    (inboundPersistOk errorPersistOk : Bool) (agent : AgentOutcome)
    (hAuth : truthy userId = true) :
    ∃ w : Writer,
      POST userId (BodyParse.parsed messages newMessage chatId) (Except.ok ())
          true inboundPersistOk agent errorPersistOk = PostResult.sseStream w ∧
      w.written.head? = some StreamMessage.connected ∧
      w.written.countP isConnected = 1 ∧
      w.written.countP isTerminal = 1 ∧
      w.written.getLast? = some (terminalEnvelope messages agent) ∧
      isTerminal (terminalEnvelope messages agent) = true ∧
      (terminalEnvelope messages agent = StreamMessage.done ↔
        ∃ msgs evs, messages = some msgs ∧
          agent = AgentOutcome.stream evs none) ∧
      w.closed = true := by
  refine ⟨runTurn inboundPersistOk messages newMessage agent errorPersistOk,
    ?_, ?_, ?_, ?_, ?_, (terminalEnvelope_terminal _ _).1, ?_, ?_⟩
  · simp [POST, hAuth]
  · rw [runTurn_eq]
    rfl
  · rw [runTurn_eq]
    have h0 : (midEnvelopes messages agent).countP isConnected = 0 :=
      List.countP_eq_zero.mpr fun m hm => by
        simp [(mem_midEnvelopes_not_protocol _ _ m hm).1]
    have hc : isConnected StreamMessage.connected = true := rfl
    simp [List.countP_cons, List.countP_append, h0, hc,
      (terminalEnvelope_terminal messages agent).2]
  · rw [runTurn_eq]
    have h0 : (midEnvelopes messages agent).countP isTerminal = 0 :=
      List.countP_eq_zero.mpr fun m hm => by
        simp [(mem_midEnvelopes_not_protocol _ _ m hm).2]
    have hc : isTerminal StreamMessage.connected = false := rfl
    simp [List.countP_cons, List.countP_append, h0, hc,
      (terminalEnvelope_terminal messages agent).1]
  · rw [runTurn_eq]
    exact getLast_cons_append_singleton _ _ _
  · cases messages with
    | none => simp [terminalEnvelope]
    | some msgs =>
        cases agent with
        | throws msg => simp [terminalEnvelope]
        | stream evs failure => cases failure <;> simp [terminalEnvelope]
  · rw [runTurn_eq]

/-- Witness for C1 at a concrete authenticated request. -/
theorem stream_envelope_lifecycle_witness :
    truthy (some "user_1") = true ∧
    ∃ w : Writer,
      POST (some "user_1") (BodyParse.parsed (some []) "salam" "chat_1")
          (Except.ok ()) true true (AgentOutcome.stream [] none) true =
        PostResult.sseStream w ∧
      w.written.head? = some StreamMessage.connected ∧
      w.written.countP isConnected = 1 ∧
      w.written.countP isTerminal = 1 ∧
      w.written.getLast? =
        some (terminalEnvelope (some []) (AgentOutcome.stream [] none)) ∧
      isTerminal (terminalEnvelope (some []) (AgentOutcome.stream [] none)) = true ∧
      (terminalEnvelope (some []) (AgentOutcome.stream [] none) =
          StreamMessage.done ↔
        ∃ msgs evs, (some [] : Option (List ChatMessage)) = some msgs ∧
          AgentOutcome.stream [] none = AgentOutcome.stream evs none) ∧
      w.closed = true :=
  ⟨by decide,
    stream_envelope_lifecycle (some "user_1") (some []) "salam" "chat_1"
      true true (AgentOutcome.stream [] none) (by decide)⟩

/-- C2, counterexample: a model-output chunk whose content is the bare
empty string still emits a `token` envelope — the bare-string branch of
the handler performs no emptiness check, so the claimed suppression of
empty normalized text fails there. -/
theorem token_empty_string_counterexample :
    translateEvent (AgentEvent.chatModelStream (some (ChunkContent.str ""))) =
      [StreamMessage.token ""] ∧
    translateEvent (AgentEvent.chatModelStream (some (ChunkContent.str ""))) ≠
      [] :=
  ⟨rfl, by decide⟩

/-- C2, amended: a bare-string chunk always emits a `token` envelope
carrying exactly that string (even when empty); an array-shaped chunk
emits a `token` envelope exactly when the first part's text is truthy,
and then carries that text — so a structured chunk with an empty first
part emits nothing. -/
theorem token_emission_amended :
    (∀ s, translateEvent (AgentEvent.chatModelStream (some (ChunkContent.str s))) =
      [StreamMessage.token s]) ∧
    (∀ parts,
      translateEvent (AgentEvent.chatModelStream (some (ChunkContent.arr parts))) ≠
          [] ↔
        truthy (firstPartText parts) = true) ∧
    (∀ parts text, firstPartText parts = some text → text ≠ "" →
      translateEvent (AgentEvent.chatModelStream (some (ChunkContent.arr parts))) =
        [StreamMessage.token text]) := by
  refine ⟨fun s => rfl, fun parts => ?_, fun parts text h1 h2 => ?_⟩
  · cases parts with
    | nil => simp [translateEvent, firstPartText, truthy]
    | cons p rest =>
        simp only [translateEvent, firstPartText]
        cases hp : partText p with
        | none => simp [truthy]
        | some t =>
            by_cases ht : t = "" <;> simp [ht, truthy]
  · cases parts with
    | nil => exact absurd h1 (by simp [firstPartText])
    | cons p rest =>
        simp only [firstPartText] at h1
        simp only [translateEvent]
        rw [h1]
        simp [h2]

/-- Witness for C2 amended: a structured chunk with a non-empty first
part emits exactly its text. -/
theorem token_emission_amended_witness :
    firstPartText [ContentPart.obj (some "bismillah")] = some "bismillah" ∧
    "bismillah" ≠ "" ∧
    translateEvent (AgentEvent.chatModelStream
        (some (ChunkContent.arr [ContentPart.obj (some "bismillah")]))) =
      [StreamMessage.token "bismillah"] :=
  ⟨rfl, by decide,
    token_emission_amended.2.2 [ContentPart.obj (some "bismillah")] "bismillah"
      rfl (by decide)⟩

/-- C3: a `tool-start` envelope is only emitted when both the tool name
and the input are (truthily) present, and then carries them; a tool-end
event with no output emits nothing; an emitted `tool-end` envelope's
tool field is the name resolved from the constructed tool message's
metadata, and is the sentinel `"unknown"` whenever that name is not
resolvable. -/
theorem tool_event_translation (name input output : Option String)
    (ctorOk : Bool) (lcName : Option String) :
    (∀ m ∈ translateEvent (AgentEvent.toolStartEv name input),
      truthy name = true ∧ truthy input = true ∧
        m = StreamMessage.toolStart (name.getD "") (input.getD "")) ∧
    (output = none →
      translateEvent (AgentEvent.toolEndEv output ctorOk lcName) = []) ∧
    (∀ tool out,
      StreamMessage.toolEnd tool out ∈
          translateEvent (AgentEvent.toolEndEv output ctorOk lcName) →
      tool = resolveToolName lcName ∧
        (truthy lcName = false → tool = "unknown")) := by
  refine ⟨?_, ?_, ?_⟩
  · intro m hm
    simp only [translateEvent] at hm
    split at hm
    · next hcond =>
        simp only [List.mem_singleton] at hm
        rw [Bool.and_eq_true] at hcond
        obtain ⟨h1, h2⟩ := hcond
        subst hm
        exact ⟨h1, h2, by simp [h1]⟩
    · simp at hm
  · intro ho
    subst ho
    rfl
  · intro tool out hm
    simp only [translateEvent] at hm
    split at hm
    · split at hm
      · simp only [List.mem_singleton, StreamMessage.toolEnd.injEq] at hm
        refine ⟨hm.1, fun hf => ?_⟩
        rw [hm.1]
        simp [resolveToolName, hf]
      · simp at hm
    · simp at hm

/-- Witness for C3 at concrete tool events. -/
theorem tool_event_translation_witness :
    (truthy (some "zakatCalculator") = true ∧ truthy (some "amount") = true ∧
      StreamMessage.toolStart "zakatCalculator" "amount" =
        StreamMessage.toolStart ((some "zakatCalculator").getD "")
          ((some "amount").getD "")) ∧
    translateEvent (AgentEvent.toolEndEv none true none) = [] ∧
    ("unknown" = resolveToolName none ∧
      (truthy (none : Option String) = false → "unknown" = "unknown")) :=
  ⟨(tool_event_translation (some "zakatCalculator") (some "amount")
      (some "result") true none).1
      (StreamMessage.toolStart "zakatCalculator" "amount") (by decide),
   (tool_event_translation (some "a") (some "b") none true none).2.1 rfl,
   (tool_event_translation (some "zakatCalculator") (some "amount")
      (some "result") true none).2.2 "unknown" "result" (by decide)⟩

/-- C4, counterexample: when `getConvexClient` itself fails, the `POST`
handler returns an immediate non-streaming 500 response — the turn does
not proceed and no terminal envelope is ever written, so gateway-client
acquisition failure is fatal, contrary to the claim. -/
theorem convex_client_failure_fatal_counterexample :
    POST (some "user_1") (BodyParse.parsed (some []) "salam" "chat_1")
        (Except.error "Convex URL is not configured") true true
        (AgentOutcome.stream [] none) true = PostResult.httpResponse 500 := by
  decide

/-- C4, amended: failures of the Persistence Gateway's two append
operations (the inbound user message and the synthetic error record)
are non-fatal — the envelope trace is unchanged and the turn still
reaches a terminal envelope; only the append operations enjoy this,
not acquisition of the gateway client itself. -/
theorem persistence_append_nonfatal (inboundPersistOk errorPersistOk : Bool)
    (messages : Option (List ChatMessage)) (newMessage : String)
    (agent : AgentOutcome) :
    runTurn inboundPersistOk messages newMessage agent errorPersistOk =
      runTurn true messages newMessage agent true ∧
    (runTurn inboundPersistOk messages newMessage agent
        errorPersistOk).written.getLast? =
      some (terminalEnvelope messages agent) ∧
    isTerminal (terminalEnvelope messages agent) = true := by
  refine ⟨rfl, ?_, (terminalEnvelope_terminal _ _).1⟩
  rw [runTurn_eq]
  exact getLast_cons_append_singleton _ _ _

/-- C5, counterexample: an authenticated request whose body parses as
JSON but is structurally invalid (no `messages` array) does not get a
bad-request response — the SSE stream opens, a `connected` envelope is
emitted, and the failure is reported in-stream. -/
theorem invalid_body_streams_counterexample :
    POST (some "user_1") (BodyParse.parsed none "salam" "chat_1")
        (Except.ok ()) true true (AgentOutcome.stream [] none) true =
      PostResult.sseStream
        { written := [StreamMessage.connected,
            StreamMessage.error mapUndefinedError]
          closed := true } := by
  decide

/-- C5, amended: only a body that fails JSON parsing receives the
immediate non-streaming 400 response (an authenticated parsed body never
does); a body that parses but lacks a usable `messages` array instead
opens the stream, emits `connected`, and terminates with an in-stream
`error` envelope. -/
theorem invalid_body_amended (userId : Option String)
    (hAuth : truthy userId = true) (convexClient : Except String Unit)
    (hasMutation inboundPersistOk errorPersistOk : Bool)
    (agent : AgentOutcome) :
    POST userId BodyParse.unparsable convexClient hasMutation
        inboundPersistOk agent errorPersistOk = PostResult.httpResponse 400 ∧
    (∀ messages newMessage chatId,
      POST userId (BodyParse.parsed messages newMessage chatId) convexClient
          hasMutation inboundPersistOk agent errorPersistOk ≠
        PostResult.httpResponse 400) ∧
    (∀ newMessage chatId, ∃ w : Writer,
      POST userId (BodyParse.parsed none newMessage chatId) (Except.ok ())
          true inboundPersistOk agent errorPersistOk =
        PostResult.sseStream w ∧
      w.written = [StreamMessage.connected,
        StreamMessage.error mapUndefinedError] ∧
      w.closed = true) := by
  refine ⟨by simp [POST, hAuth], ?_, ?_⟩
  · intro messages newMessage chatId
    simp only [POST, hAuth, if_true]
    cases convexClient with
    | error msg => simp
    | ok u =>
        cases hasMutation with
        | true => simp
        | false => simp
  · intro newMessage chatId
    refine ⟨runTurn inboundPersistOk none newMessage agent errorPersistOk,
      by simp [POST, hAuth], ?_, ?_⟩
    · rw [runTurn_eq]
      simp [midEnvelopes, terminalEnvelope]
    · rw [runTurn_eq]

/-- Witness for C5 amended at a concrete authenticated request. -/
theorem invalid_body_amended_witness :
    truthy (some "user_1") = true ∧
    POST (some "user_1") BodyParse.unparsable (Except.ok ()) true true
        (AgentOutcome.stream [] none) true = PostResult.httpResponse 400 :=
  ⟨by decide,
    (invalid_body_amended (some "user_1") (by decide) (Except.ok ()) true true
      true (AgentOutcome.stream [] none)).1⟩

/-- C6, counterexample: the `OPTIONS` handler answers with status 200
(a CORS preflight response), not with method-not-allowed, so not every
non-POST method yields a 405. -/
theorem options_not_405_counterexample :
    OPTIONS.status = 200 ∧ OPTIONS.status ≠ 405 := by
  decide

/-- C6, amended: of the non-POST handlers this route defines, `GET`
returns a 405 method-not-allowed JSON response while `OPTIONS` returns
a 200 CORS-preflight response with an empty body; neither response is
an SSE stream. -/
theorem method_handlers_amended :
    GET.status = 405 ∧ GET.allow = some "POST, OPTIONS" ∧
    GET.contentType = some "application/json" ∧
    GET.contentType ≠ some "text/event-stream" ∧
    OPTIONS.status = 200 ∧ OPTIONS.allow = some "POST, OPTIONS" ∧
    OPTIONS.contentType ≠ some "text/event-stream" := by
  refine ⟨rfl, rfl, rfl, by decide, rfl, rfl, by decide⟩

/-- C7: the conversation forwarded to the agent is exactly the prior
history, in order, with each entry role-mapped, followed by the new
user message as the single final entry. -/
theorem forwarded_conversation (messages : List ChatMessage)
    (newMessage : String) :
    (toLangChainMessages messages newMessage).length = messages.length + 1 ∧
    (∀ i (h : i < messages.length),
      (toLangChainMessages messages newMessage)[i]? =
        some (roleMap (messages.get ⟨i, h⟩))) ∧
    (toLangChainMessages messages newMessage)[messages.length]? =
      some (LCMessage.human newMessage) ∧
    (∀ i, messages.length < i →
      (toLangChainMessages messages newMessage)[i]? = none) := by
  have hmap : toLangChainMessages messages newMessage =
      messages.map roleMap ++ [LCMessage.human newMessage] := rfl
  refine ⟨by simp [hmap], ?_, ?_, ?_⟩
  · intro i h
    rw [hmap, List.getElem?_append_left (by simpa using h), List.getElem?_map,
      List.getElem?_eq_getElem h]
    rfl
  · rw [hmap, List.getElem?_append_right (by simp)]
    simp
  · intro i hi
    rw [hmap]
    apply List.getElem?_eq_none
    simp only [List.length_append, List.length_map, List.length_singleton]
    omega

/-- Witness for C7 on a one-entry history with a non-user role. -/
theorem forwarded_conversation_witness :
    (0 : Nat) < 1 ∧
    (toLangChainMessages [ChatMessage.mk "system" "guidance"] "salam")[0]? =
      some (LCMessage.ai "guidance") := by
  refine ⟨by decide, ?_⟩
  have h := (forwarded_conversation [ChatMessage.mk "system" "guidance"]
    "salam").2.1 0 (by decide)
  simpa [roleMap] using h

/-- C8: the writer is closed on every exit path of the turn, and the
guarded close operation is idempotent — a second close neither raises
(it is total, the underlying rejection being swallowed) nor changes the
envelopes already written. -/
theorem writer_close_guarantee :
    (∀ (i : Bool) (ms : Option (List ChatMessage)) (nm : String)
        (ag : AgentOutcome) (e : Bool),
      (runTurn i ms nm ag e).closed = true) ∧
    (∀ w : Writer, finallyClose (finallyClose w) = finallyClose w) ∧
    (∀ w : Writer, (finallyClose w).written = w.written ∧
      (finallyClose (finallyClose w)).written = w.written) := by
  refine ⟨fun i ms nm ag e => by rw [runTurn_eq], fun w => ?_, fun w => ?_⟩
  · cases w with
    | mk written closed => cases closed <;> simp [finallyClose, rawClose]
  · cases w with
    | mk written closed => cases closed <;> simp [finallyClose, rawClose]

/-- C9: the SSE write function never lets a serialization failure
escape — a failing envelope is dropped as a no-op and the stream is not
aborted; on success the bytes written are exactly the JSON encoding
framed by the SSE data marker and the two-newline delimiter. -/
theorem sse_serialization_boundary (ser : StreamMessage → Option String)
    (w : ByteStream) (data : StreamMessage) :
    (sendSSEMessage ser w data).aborted = w.aborted ∧
    (ser data = none → sendSSEMessage ser w data = w) ∧
    (∀ json, ser data = some json →
      (sendSSEMessage ser w data).bytes =
        w.bytes ++ SSE_DATA_FIELD ++ json ++ SSE_LINE_DELIMITER) := by
  refine ⟨?_, ?_, ?_⟩
  · cases hs : ser data <;> simp [sendSSEMessage, hs]
  · intro hs
    simp [sendSSEMessage, hs]
  · intro json hs
    simp [sendSSEMessage, hs]

/-- Witness for C9: a dropped envelope and a successfully framed one. -/
theorem sse_serialization_boundary_witness :
    sendSSEMessage (fun _ => none) {} StreamMessage.done = ({} : ByteStream) ∧
    (sendSSEMessage (fun _ => some "j") {} StreamMessage.done).bytes =
      ({} : ByteStream).bytes ++ SSE_DATA_FIELD ++ "j" ++ SSE_LINE_DELIMITER :=
  ⟨(sse_serialization_boundary (fun _ => none) {} StreamMessage.done).2.1 rfl,
   (sse_serialization_boundary (fun _ => some "j") {} StreamMessage.done).2.2
     "j" rfl⟩

/-- C10: once a call to `getConvexClient` succeeds, the client is
cached and every later call returns that same instance regardless of
the environment; a failing call caches nothing, so a later call
re-attempts initialization and can succeed. -/
theorem getConvexClient_caching {C : Type} (env envLater : Option String)
    (construct constructLater : String → Option C) (cachedClient : Option C)
    (c : C) (h : (getConvexClient env construct cachedClient).2 = Except.ok c) :
    (getConvexClient env construct cachedClient).1 = some c ∧
    getConvexClient envLater constructLater (some c) = (some c, Except.ok c) ∧
    (∀ (envAgain : Option String) (constructAgain : String → Option C)
        (msg : String),
      (getConvexClient envAgain constructAgain (none : Option C)).2 =
          Except.error msg →
      (getConvexClient envAgain constructAgain (none : Option C)).1 = none) ∧
    (∀ (url : String) (constructAgain : String → Option C) (cNew : C),
      constructAgain url = some cNew →
      getConvexClient (some url) constructAgain (none : Option C) =
        (some cNew, Except.ok cNew)) := by
  refine ⟨?_, by simp [getConvexClient], ?_, ?_⟩
  · cases cachedClient with
    | some c0 =>
        simp [getConvexClient] at h ⊢
        exact h
    | none =>
        cases env with
        | none => simp [getConvexClient] at h
        | some url =>
            cases hc : construct url with
            | none => simp [getConvexClient, hc] at h
            | some c1 =>
                simp [getConvexClient, hc] at h ⊢
                exact h
  · intro envAgain constructAgain msg hmsg
    cases envAgain with
    | none => simp [getConvexClient]
    | some url =>
        cases hc : constructAgain url with
        | none => simp [getConvexClient, hc]
        | some cNew => simp [getConvexClient, hc] at hmsg
  · intro url constructAgain cNew hc
    simp [getConvexClient, hc]

/-- Witness for C10: a successful initialization caches the client, and
a later call with a different (even absent) environment returns it. -/
theorem getConvexClient_caching_witness :
    (getConvexClient (some "url") (fun _ => some 7) (none : Option Nat)).1 =
      some 7 ∧
    getConvexClient (none : Option String) (fun _ => (none : Option Nat))
        (some 7) = (some 7, Except.ok 7) :=
  ⟨(getConvexClient_caching (some "url") none (fun _ => some 7)
      (fun _ => none) none 7 rfl).1,
   (getConvexClient_caching (some "url") none (fun _ => some 7)
      (fun _ => none) none 7 rfl).2.1⟩

end HallalJarvis
